import Mathlib

/-
Verification of the SimpleMicroservices resource-store API.

The repository is a FastAPI application (src/main.py) exposing four
resources (Person, Address, FamilyHistory, AccountBalance), each backed by
a process-local dict keyed by UUID.  We embed the data model and the
create / list / get-by-id / patch handlers as pure Lean functions over an
explicit application state.

Modelling conventions:
- UUID values are abstracted as Nat (only equality of identifiers matters).
- datetime values are abstracted as Nat clock ticks; handlers that stamp
  timestamps take the current time as an explicit argument.  The patch
  handlers take no clock argument because the source never reads the clock
  during a patch.
- Python float is abstracted as Int: the code only ever compares balances
  for exact equality, never does arithmetic on them.
- A Python dict is embedded as an association list (List (UUID x record));
  assignment d[k] = v replaces the value in place when the key is present
  and appends the binding otherwise, matching dict insertion-order
  semantics.  dict.values() is the list of values in order.
- Pydantic model_dump with exclude_unset is modelled by wrapping every
  updatable field of an Update payload in one extra Option layer:
  none is "field absent from the request body", some x is "field
  explicitly sent with value x" (x itself may be an Option for nullable
  fields, so an explicit null is some none).
- raise HTTPException(status_code, detail) is modelled by the Err record;
  every handler returns (Except Err result, state after the call).
-/

abbrev UUID := Nat

abbrev Timestamp := Nat

/-- Structured error carrying an HTTP status code and a detail message,
embedding raise HTTPException(status_code=..., detail=...). -/
structure Err where
  status_code : Nat
  detail : String
deriving DecidableEq

/-- In-memory store of one resource: a Python dict from UUID to record,
embedded as an association list in insertion order. -/
abbrev Store (α : Type) := List (UUID × α)

/-- Lookup in a store: d[k] / k in d. -/
def Store.find? {α : Type} : Store α → UUID → Option α
  | [], _ => none
  | (k, v) :: rest, k' => if k = k' then some v else Store.find? rest k'

/-- Dict assignment d[k] = v: replace in place when the key is present,
append otherwise. -/
def Store.insert {α : Type} : Store α → UUID → α → Store α
  | [], k, v => [(k, v)]
  | (k', v') :: rest, k, v =>
      if k' = k then (k', v) :: rest else (k', v') :: Store.insert rest k v

/-- Dict values in insertion order: list(d.values()). -/
def Store.values {α : Type} (s : Store α) : List α :=
  s.map Prod.snd

/-- Number of entries of the store whose key equals k. -/
def Store.countKey {α : Type} : Store α → UUID → Nat
  | [], _ => 0
  | (k', _) :: rest, k => (if k' = k then 1 else 0) + Store.countKey rest k

/-- Well-formedness of a store: no two entries share a key.  Every state
reachable through the handlers satisfies this. -/
def Store.NodupKeys {α : Type} (s : Store α) : Prop :=
  (s.map Prod.fst).Nodup

@[simp]
theorem Store.find_insert_self {α : Type} (s : Store α) (k : UUID) (v : α) :
    Store.find? (Store.insert s k v) k = some v := by
  induction s with
  | nil => simp [Store.insert, Store.find?]
  | cons hd tl ih =>
      obtain ⟨k', v'⟩ := hd
      by_cases h : k' = k
      · simp [Store.insert, Store.find?, h]
      · simp [Store.insert, Store.find?, h, ih]

theorem Store.length_insert_of_found {α : Type} (s : Store α) (k : UUID) (v : α)
    (h : (Store.find? s k).isSome = true) :
    (Store.insert s k v).length = s.length := by
  induction s with
  | nil => simp [Store.find?] at h
  | cons hd tl ih =>
      obtain ⟨k', v'⟩ := hd
      by_cases hk : k' = k
      · simp [Store.insert, hk]
      · simp [Store.find?, hk] at h
        simp [Store.insert, hk, ih h]

theorem Store.countKey_insert_self {α : Type} (s : Store α) (k : UUID) (v : α) :
    Store.countKey (Store.insert s k v) k = max (Store.countKey s k) 1 := by
  induction s with
  | nil => simp [Store.insert, Store.countKey]
  | cons hd tl ih =>
      obtain ⟨k', v'⟩ := hd
      by_cases h : k' = k
      · simp [Store.insert, Store.countKey, h]
      · simp [Store.insert, Store.countKey, h]
        exact ih

theorem Store.countKey_eq_zero_of_find_eq_none {α : Type} (s : Store α) (k : UUID)
    (h : Store.find? s k = none) : Store.countKey s k = 0 := by
  induction s with
  | nil => simp [Store.countKey]
  | cons hd tl ih =>
      obtain ⟨k', v'⟩ := hd
      by_cases hk : k' = k
      · simp [Store.find?, hk] at h
      · simp [Store.find?, hk] at h
        simp [Store.countKey, hk, ih h]

theorem Store.countKey_eq_zero_of_not_mem_keys {α : Type} (s : Store α) (k : UUID)
    (h : k ∉ s.map Prod.fst) : Store.countKey s k = 0 := by
  induction s with
  | nil => simp [Store.countKey]
  | cons hd tl ih =>
      obtain ⟨k', v'⟩ := hd
      rw [List.map_cons, List.mem_cons] at h
      push_neg at h
      simp [Store.countKey, ih h.2, Ne.symm h.1]

theorem Store.countKey_le_one_of_nodup {α : Type} (s : Store α) (k : UUID)
    (h : Store.NodupKeys s) : Store.countKey s k ≤ 1 := by
  induction s with
  | nil => simp [Store.countKey]
  | cons hd tl ih =>
      obtain ⟨k', v'⟩ := hd
      simp [Store.NodupKeys, List.nodup_cons] at h
      by_cases hk : k' = k
      · subst hk
        have hz : Store.countKey tl k' = 0 :=
          Store.countKey_eq_zero_of_not_mem_keys tl k' (by simpa using h.1)
        simp [Store.countKey, hz]
      · have := ih h.2
        simpa [Store.countKey, hk] using this

/-
Data model, from src/models/family_history.py and
src/models/account_balance.py.  The Address and Person model files are
imported by src/main.py but absent from the source tree, so those records
are modelled from the spec (see their doc comments).
-/

/-- FamilyHistoryRead (src/models/family_history.py): id plus four
nullable narrative strings, with created_at / updated_at stamps. -/
structure FamilyHistoryRead where
  id : UUID
  father : Option String
  mother : Option String
  sister : Option String
  brother : Option String
  created_at : Timestamp
  updated_at : Timestamp
deriving DecidableEq

/-- FamilyHistoryCreate: the creation payload after request parsing.  The
id field has default_factory uuid4, so a parsed payload always carries a
concrete id (client-supplied or generated at parse time). -/
structure FamilyHistoryCreate where
  id : UUID
  father : Option String
  mother : Option String
  sister : Option String
  brother : Option String
deriving DecidableEq

/-- FamilyHistoryUpdate: every field wrapped in one extra Option tracking
presence in the request body (model_dump exclude_unset).  The id field is
inherited from FamilyHistoryBase, so the body may carry an id. -/
structure FamilyHistoryUpdate where
  id : Option UUID
  father : Option (Option String)
  mother : Option (Option String)
  sister : Option (Option String)
  brother : Option (Option String)
deriving DecidableEq

/-- AccountBalanceRead (src/models/account_balance.py): id plus one
balance field (float with default None, hence optional; float abstracted
as Int since only equality is used), with timestamps. -/
structure AccountBalanceRead where
  id : UUID
  account_balance : Option Int
  created_at : Timestamp
  updated_at : Timestamp
deriving DecidableEq

/-- AccountBalanceCreate: creation payload with parse-time id. -/
structure AccountBalanceCreate where
  id : UUID
  account_balance : Option Int
deriving DecidableEq

/-- AccountBalanceUpdate: presence-tracked fields; id inherited from
AccountBalanceBase may be carried in the body. -/
structure AccountBalanceUpdate where
  id : Option UUID
  account_balance : Option (Option Int)
deriving DecidableEq

/-- Modelled from the spec: src/models/address.py is missing from the
source tree.  Spec section 3: Address has street/city/state/postal_code/
country optional string fields.  This bare shape is also the embedded
Address value inside Person. -/
structure Address where
  street : Option String
  city : Option String
  state : Option String
  postal_code : Option String
  country : Option String
deriving DecidableEq

/-- Modelled from the spec: AddressRead, the stored representation of the
Address resource (id, payload fields, timestamps). -/
structure AddressRead where
  id : UUID
  street : Option String
  city : Option String
  state : Option String
  postal_code : Option String
  country : Option String
  created_at : Timestamp
  updated_at : Timestamp
deriving DecidableEq

/-- Modelled from the spec: AddressCreate, creation payload with
parse-time id. -/
structure AddressCreate where
  id : UUID
  street : Option String
  city : Option String
  state : Option String
  postal_code : Option String
  country : Option String
deriving DecidableEq

/-- Modelled from the spec: AddressUpdate with presence-tracked fields.
Following the spec (identifier immutable, set only by the server), the
update payload carries no id field. -/
structure AddressUpdate where
  street : Option (Option String)
  city : Option (Option String)
  state : Option (Option String)
  postal_code : Option (Option String)
  country : Option (Option String)
deriving DecidableEq

/-- Modelled from the spec: src/models/person.py is missing from the
source tree.  Spec section 3: Person has identity fields plus an embedded
ordered list of Address values; the list_persons filters in src/main.py
read uni, first_name, last_name, email, phone, birth_date and the nested
addresses.  Identity fields are modelled as required strings; birth_date
is kept in its string form since the source compares str(p.birth_date). -/
structure PersonRead where
  id : UUID
  uni : String
  first_name : String
  last_name : String
  email : String
  phone : String
  birth_date : String
  addresses : List Address
  created_at : Timestamp
  updated_at : Timestamp
deriving DecidableEq

/-- Modelled from the spec: PersonCreate, creation payload with
parse-time id. -/
structure PersonCreate where
  id : UUID
  uni : String
  first_name : String
  last_name : String
  email : String
  phone : String
  birth_date : String
  addresses : List Address
deriving DecidableEq

/-- Modelled from the spec: PersonUpdate with presence-tracked fields and
no id field (identifier immutable per spec). -/
structure PersonUpdate where
  uni : Option String
  first_name : Option String
  last_name : Option String
  email : Option String
  phone : Option String
  birth_date : Option String
  addresses : Option (List Address)
deriving DecidableEq

/-- Application state: the four module-level dicts of src/main.py. -/
structure AppState where
  persons : Store PersonRead
  family_histories : Store FamilyHistoryRead
  account_balances : Store AccountBalanceRead
  addresses : Store AddressRead
deriving DecidableEq

/-- Transcribes the repeated list-handler pattern of src/main.py:
if q is not None: results = [p for p in results if pred(q, p)]. -/
def optFilter {β α : Type} (q : Option β) (pred : β → α → Bool) (l : List α) : List α :=
  match q with
  | none => l
  | some v => l.filter (pred v)

@[simp]
theorem mem_optFilter {β α : Type} (q : Option β) (pred : β → α → Bool)
    (l : List α) (a : α) :
    a ∈ optFilter q pred l ↔ a ∈ l ∧ ∀ v, q = some v → pred v a = true := by
  cases q <;> simp [optFilter, List.mem_filter]

/-
Family History endpoints (src/main.py lines 39 to 80).
-/

/-- POST /family-histories (src/main.py, create_family_history). -/
def create_family_history (now : Timestamp) (st : AppState)
    (family_history : FamilyHistoryCreate) :
    Except Err FamilyHistoryRead × AppState :=
  if (Store.find? st.family_histories family_history.id).isSome then
    (Except.error ⟨400, "Family History with this ID already exists"⟩, st)
  else
    let history_read : FamilyHistoryRead :=
      { id := family_history.id
        father := family_history.father
        mother := family_history.mother
        sister := family_history.sister
        brother := family_history.brother
        created_at := now
        updated_at := now }
    (Except.ok history_read,
     { st with family_histories :=
        Store.insert st.family_histories history_read.id history_read })

/-- GET /family-histories (src/main.py, get_family_histories). -/
def get_family_histories (st : AppState)
    (father mother sister brother : Option String) :
    List FamilyHistoryRead × AppState :=
  let results := Store.values st.family_histories
  let results := optFilter father (fun f p => decide (p.father = some f)) results
  let results := optFilter mother (fun f p => decide (p.mother = some f)) results
  let results := optFilter sister (fun f p => decide (p.sister = some f)) results
  let results := optFilter brother (fun f p => decide (p.brother = some f)) results
  (results, st)

/-- GET /family-histories/{history_id} (src/main.py, get_family_history). -/
def get_family_history (st : AppState) (history_id : UUID) :
    Except Err FamilyHistoryRead × AppState :=
  match Store.find? st.family_histories history_id with
  | none => (Except.error ⟨404, "Family history not found"⟩, st)
  | some r => (Except.ok r, st)

/-- PATCH /family-histories/{history_id} (src/main.py,
update_family_history): stored.update(update.model_dump(exclude_unset))
then re-store; timestamps are carried over from the stored dump. -/
def update_family_history (st : AppState) (history_id : UUID)
    (update : FamilyHistoryUpdate) :
    Except Err FamilyHistoryRead × AppState :=
  match Store.find? st.family_histories history_id with
  | none => (Except.error ⟨404, "Family history not found"⟩, st)
  | some stored =>
      let merged : FamilyHistoryRead :=
        { id := update.id.getD stored.id
          father := update.father.getD stored.father
          mother := update.mother.getD stored.mother
          sister := update.sister.getD stored.sister
          brother := update.brother.getD stored.brother
          created_at := stored.created_at
          updated_at := stored.updated_at }
      (Except.ok merged,
       { st with family_histories :=
          Store.insert st.family_histories history_id merged })

/-
Account Balance endpoints (src/main.py lines 85 to 116).
-/

/-- POST /account-balances (src/main.py, create_account_balance): note
the absence of any duplicate-id check. -/
def create_account_balance (now : Timestamp) (st : AppState)
    (account_balance : AccountBalanceCreate) :
    Except Err AccountBalanceRead × AppState :=
  let balance_read : AccountBalanceRead :=
    { id := account_balance.id
      account_balance := account_balance.account_balance
      created_at := now
      updated_at := now }
  (Except.ok balance_read,
   { st with account_balances :=
      Store.insert st.account_balances balance_read.id balance_read })

/-- GET /account-balances (src/main.py, get_account_balance): list with
one optional exact-equality balance filter. -/
def get_account_balance (st : AppState) (account_balance : Option Int) :
    List AccountBalanceRead × AppState :=
  let results := Store.values st.account_balances
  let results :=
    optFilter account_balance (fun b p => decide (p.account_balance = some b)) results
  (results, st)

/-- GET /account-balances/{account_id} (src/main.py,
get_account_balances). -/
def get_account_balances (st : AppState) (account_id : UUID) :
    Except Err AccountBalanceRead × AppState :=
  match Store.find? st.account_balances account_id with
  | none => (Except.error ⟨404, "Account balance not found"⟩, st)
  | some r => (Except.ok r, st)

/-- PATCH /account-balances/{account_id} (src/main.py,
update_account_balance). -/
def update_account_balance (st : AppState) (account_id : UUID)
    (update : AccountBalanceUpdate) :
    Except Err AccountBalanceRead × AppState :=
  match Store.find? st.account_balances account_id with
  | none => (Except.error ⟨404, "Account balance not found"⟩, st)
  | some stored =>
      let merged : AccountBalanceRead :=
        { id := update.id.getD stored.id
          account_balance := update.account_balance.getD stored.account_balance
          created_at := stored.created_at
          updated_at := stored.updated_at }
      (Except.ok merged,
       { st with account_balances :=
          Store.insert st.account_balances account_id merged })

/-
Address endpoints (src/main.py lines 143 to 186).
-/

/-- POST /addresses (src/main.py, create_address). -/
def create_address (now : Timestamp) (st : AppState) (address : AddressCreate) :
    Except Err AddressRead × AppState :=
  if (Store.find? st.addresses address.id).isSome then
    (Except.error ⟨400, "Address with this ID already exists"⟩, st)
  else
    let address_read : AddressRead :=
      { id := address.id
        street := address.street
        city := address.city
        state := address.state
        postal_code := address.postal_code
        country := address.country
        created_at := now
        updated_at := now }
    (Except.ok address_read,
     { st with addresses := Store.insert st.addresses address.id address_read })

/-- GET /addresses (src/main.py, list_addresses). -/
def list_addresses (st : AppState)
    (street city state postal_code country : Option String) :
    List AddressRead × AppState :=
  let results := Store.values st.addresses
  let results := optFilter street (fun v a => decide (a.street = some v)) results
  let results := optFilter city (fun v a => decide (a.city = some v)) results
  let results := optFilter state (fun v a => decide (a.state = some v)) results
  let results := optFilter postal_code (fun v a => decide (a.postal_code = some v)) results
  let results := optFilter country (fun v a => decide (a.country = some v)) results
  (results, st)

/-- GET /addresses/{address_id} (src/main.py, get_address). -/
def get_address (st : AppState) (address_id : UUID) :
    Except Err AddressRead × AppState :=
  match Store.find? st.addresses address_id with
  | none => (Except.error ⟨404, "Address not found"⟩, st)
  | some r => (Except.ok r, st)

/-- PATCH /addresses/{address_id} (src/main.py, update_address). -/
def update_address (st : AppState) (address_id : UUID) (update : AddressUpdate) :
    Except Err AddressRead × AppState :=
  match Store.find? st.addresses address_id with
  | none => (Except.error ⟨404, "Address not found"⟩, st)
  | some stored =>
      let merged : AddressRead :=
        { id := stored.id
          street := update.street.getD stored.street
          city := update.city.getD stored.city
          state := update.state.getD stored.state
          postal_code := update.postal_code.getD stored.postal_code
          country := update.country.getD stored.country
          created_at := stored.created_at
          updated_at := stored.updated_at }
      (Except.ok merged,
       { st with addresses := Store.insert st.addresses address_id merged })

/-
Person endpoints (src/main.py lines 191 to 245).
-/

/-- POST /persons (src/main.py, create_person): no duplicate-id check. -/
def create_person (now : Timestamp) (st : AppState) (person : PersonCreate) :
    Except Err PersonRead × AppState :=
  let person_read : PersonRead :=
    { id := person.id
      uni := person.uni
      first_name := person.first_name
      last_name := person.last_name
      email := person.email
      phone := person.phone
      birth_date := person.birth_date
      addresses := person.addresses
      created_at := now
      updated_at := now }
  (Except.ok person_read,
   { st with persons := Store.insert st.persons person_read.id person_read })

/-- GET /persons (src/main.py, list_persons): six scalar equality filters
plus two nested existential filters over the embedded address list. -/
def list_persons (st : AppState)
    (uni first_name last_name email phone birth_date city country : Option String) :
    List PersonRead × AppState :=
  let results := Store.values st.persons
  let results := optFilter uni (fun v p => decide (p.uni = v)) results
  let results := optFilter first_name (fun v p => decide (p.first_name = v)) results
  let results := optFilter last_name (fun v p => decide (p.last_name = v)) results
  let results := optFilter email (fun v p => decide (p.email = v)) results
  let results := optFilter phone (fun v p => decide (p.phone = v)) results
  let results := optFilter birth_date (fun v p => decide (p.birth_date = v)) results
  let results :=
    optFilter city (fun v p => p.addresses.any (fun a => decide (a.city = some v))) results
  let results :=
    optFilter country (fun v p => p.addresses.any (fun a => decide (a.country = some v))) results
  (results, st)

/-- GET /persons/{person_id} (src/main.py, get_person). -/
def get_person (st : AppState) (person_id : UUID) :
    Except Err PersonRead × AppState :=
  match Store.find? st.persons person_id with
  | none => (Except.error ⟨404, "Person not found"⟩, st)
  | some r => (Except.ok r, st)

/-- PATCH /persons/{person_id} (src/main.py, update_person). -/
def update_person (st : AppState) (person_id : UUID) (update : PersonUpdate) :
    Except Err PersonRead × AppState :=
  match Store.find? st.persons person_id with
  | none => (Except.error ⟨404, "Person not found"⟩, st)
  | some stored =>
      let merged : PersonRead :=
        { id := stored.id
          uni := update.uni.getD stored.uni
          first_name := update.first_name.getD stored.first_name
          last_name := update.last_name.getD stored.last_name
          email := update.email.getD stored.email
          phone := update.phone.getD stored.phone
          birth_date := update.birth_date.getD stored.birth_date
          addresses := update.addresses.getD stored.addresses
          created_at := stored.created_at
          updated_at := stored.updated_at }
      (Except.ok merged,
       { st with persons := Store.insert st.persons person_id merged })

/-
Concrete sample data used by witnesses.
-/

def sampleFH : FamilyHistoryRead :=
  ⟨1, some "IBS", some "diabetes", none, none, 0, 0⟩

def sampleAB : AccountBalanceRead :=
  ⟨3, some 120, 0, 0⟩

def sampleAddr : AddressRead :=
  ⟨4, some "5th Ave", some "NYC", some "NY", some "10001", some "USA", 0, 0⟩

def samplePerson : PersonRead :=
  ⟨5, "ab123", "Ada", "Lovelace", "ada@ex.com", "555",
   "1815-12-10", [⟨some "5th Ave", some "NYC", some "NY", some "10001", some "USA"⟩], 0, 0⟩

def sampleState : AppState :=
  ⟨[(5, samplePerson)], [(1, sampleFH)], [(3, sampleAB)], [(4, sampleAddr)]⟩


/-- Claim C1: for every resource store and stored identifier, patch
overlays onto the stored record only the fields explicitly present in the
update payload and leaves every unset field untouched; patching with an
empty payload leaves the whole record (all payload fields, and here even
the timestamps) equal to its pre-patch value.  Stated for all four
resources. -/
theorem claim_C1_patch_overlay :
    (∀ (st : AppState) (hid : UUID) (u : FamilyHistoryUpdate) (stored : FamilyHistoryRead),
      Store.find? st.family_histories hid = some stored →
      ∃ m st',
        update_family_history st hid u = (Except.ok m, st') ∧
        Store.find? st'.family_histories hid = some m ∧
        (u.id = none → m.id = stored.id) ∧
        (∀ v, u.id = some v → m.id = v) ∧
        (u.father = none → m.father = stored.father) ∧
        (∀ v, u.father = some v → m.father = v) ∧
        (u.mother = none → m.mother = stored.mother) ∧
        (∀ v, u.mother = some v → m.mother = v) ∧
        (u.sister = none → m.sister = stored.sister) ∧
        (∀ v, u.sister = some v → m.sister = v) ∧
        (u.brother = none → m.brother = stored.brother) ∧
        (∀ v, u.brother = some v → m.brother = v) ∧
        m.created_at = stored.created_at ∧
        m.updated_at = stored.updated_at ∧
        (u = ⟨none, none, none, none, none⟩ → m = stored)) ∧
    (∀ (st : AppState) (aid : UUID) (u : AddressUpdate) (stored : AddressRead),
      Store.find? st.addresses aid = some stored →
      ∃ m st',
        update_address st aid u = (Except.ok m, st') ∧
        Store.find? st'.addresses aid = some m ∧
        m.id = stored.id ∧
        (u.street = none → m.street = stored.street) ∧
        (∀ v, u.street = some v → m.street = v) ∧
        (u.city = none → m.city = stored.city) ∧
        (∀ v, u.city = some v → m.city = v) ∧
        (u.state = none → m.state = stored.state) ∧
        (∀ v, u.state = some v → m.state = v) ∧
        (u.postal_code = none → m.postal_code = stored.postal_code) ∧
        (∀ v, u.postal_code = some v → m.postal_code = v) ∧
        (u.country = none → m.country = stored.country) ∧
        (∀ v, u.country = some v → m.country = v) ∧
        m.created_at = stored.created_at ∧
        m.updated_at = stored.updated_at ∧
        (u = ⟨none, none, none, none, none⟩ → m = stored)) ∧
    (∀ (st : AppState) (aid : UUID) (u : AccountBalanceUpdate) (stored : AccountBalanceRead),
      Store.find? st.account_balances aid = some stored →
      ∃ m st',
        update_account_balance st aid u = (Except.ok m, st') ∧
        Store.find? st'.account_balances aid = some m ∧
        (u.id = none → m.id = stored.id) ∧
        (∀ v, u.id = some v → m.id = v) ∧
        (u.account_balance = none → m.account_balance = stored.account_balance) ∧
        (∀ v, u.account_balance = some v → m.account_balance = v) ∧
        m.created_at = stored.created_at ∧
        m.updated_at = stored.updated_at ∧
        (u = ⟨none, none⟩ → m = stored)) ∧
    (∀ (st : AppState) (pid : UUID) (u : PersonUpdate) (stored : PersonRead),
      Store.find? st.persons pid = some stored →
      ∃ m st',
        update_person st pid u = (Except.ok m, st') ∧
        Store.find? st'.persons pid = some m ∧
        m.id = stored.id ∧
        (u.uni = none → m.uni = stored.uni) ∧
        (∀ v, u.uni = some v → m.uni = v) ∧
        (u.first_name = none → m.first_name = stored.first_name) ∧
        (∀ v, u.first_name = some v → m.first_name = v) ∧
        (u.last_name = none → m.last_name = stored.last_name) ∧
        (∀ v, u.last_name = some v → m.last_name = v) ∧
        (u.email = none → m.email = stored.email) ∧
        (∀ v, u.email = some v → m.email = v) ∧
        (u.phone = none → m.phone = stored.phone) ∧
        (∀ v, u.phone = some v → m.phone = v) ∧
        (u.birth_date = none → m.birth_date = stored.birth_date) ∧
        (∀ v, u.birth_date = some v → m.birth_date = v) ∧
        (u.addresses = none → m.addresses = stored.addresses) ∧
        (∀ v, u.addresses = some v → m.addresses = v) ∧
        m.created_at = stored.created_at ∧
        m.updated_at = stored.updated_at ∧
        (u = ⟨none, none, none, none, none, none, none⟩ → m = stored)) := by
  refine ⟨?_, ?_, ?_, ?_⟩
  · intro st hid u stored h
    unfold update_family_history
    rw [h]
    refine ⟨_, _, rfl, Store.find_insert_self _ _ _,
      ?_, ?_, ?_, ?_, ?_, ?_, ?_, ?_, ?_, ?_, rfl, rfl, ?_⟩ <;>
      first
        | (intro e; simp [e])
        | (intro v e; simp [e])
  · intro st aid u stored h
    unfold update_address
    rw [h]
    refine ⟨_, _, rfl, Store.find_insert_self _ _ _, rfl,
      ?_, ?_, ?_, ?_, ?_, ?_, ?_, ?_, ?_, ?_, rfl, rfl, ?_⟩ <;>
      first
        | (intro e; simp [e])
        | (intro v e; simp [e])
  · intro st aid u stored h
    unfold update_account_balance
    rw [h]
    refine ⟨_, _, rfl, Store.find_insert_self _ _ _,
      ?_, ?_, ?_, ?_, rfl, rfl, ?_⟩ <;>
      first
        | (intro e; simp [e])
        | (intro v e; simp [e])
  · intro st pid u stored h
    unfold update_person
    rw [h]
    refine ⟨_, _, rfl, Store.find_insert_self _ _ _, rfl,
      ?_, ?_, ?_, ?_, ?_, ?_, ?_, ?_, ?_, ?_, ?_, ?_, ?_, ?_, rfl, rfl, ?_⟩ <;>
      first
        | (intro e; simp [e])
        | (intro v e; simp [e])

def sampleFHUpdate : FamilyHistoryUpdate :=
  ⟨none, some (some "flu"), none, none, none⟩

/-- Witness for claim C1: the family-history conjunct applied to a
concrete store holding sampleFH under key 1 and a patch setting only the
father field. -/
theorem claim_C1_patch_overlay_witness :
    ∃ m st',
      update_family_history sampleState 1 sampleFHUpdate = (Except.ok m, st') ∧
      Store.find? st'.family_histories 1 = some m ∧
      (sampleFHUpdate.id = none → m.id = sampleFH.id) ∧
      (∀ v, sampleFHUpdate.id = some v → m.id = v) ∧
      (sampleFHUpdate.father = none → m.father = sampleFH.father) ∧
      (∀ v, sampleFHUpdate.father = some v → m.father = v) ∧
      (sampleFHUpdate.mother = none → m.mother = sampleFH.mother) ∧
      (∀ v, sampleFHUpdate.mother = some v → m.mother = v) ∧
      (sampleFHUpdate.sister = none → m.sister = sampleFH.sister) ∧
      (∀ v, sampleFHUpdate.sister = some v → m.sister = v) ∧
      (sampleFHUpdate.brother = none → m.brother = sampleFH.brother) ∧
      (∀ v, sampleFHUpdate.brother = some v → m.brother = v) ∧
      m.created_at = sampleFH.created_at ∧
      m.updated_at = sampleFH.updated_at ∧
      (sampleFHUpdate = ⟨none, none, none, none, none⟩ → m = sampleFH) :=
  claim_C1_patch_overlay.1 sampleState 1 sampleFHUpdate sampleFH rfl

/-- Claim C2: for the FamilyHistory and Address stores, create with an
identifier already present fails with status 400 and the already-exists
detail, and returns the application state unchanged (so the stored record
for that identifier is untouched and no store grows). -/
theorem claim_C2_create_conflict :
    (∀ (now : Timestamp) (st : AppState) (c : FamilyHistoryCreate),
      (Store.find? st.family_histories c.id).isSome = true →
      create_family_history now st c =
        (Except.error ⟨400, "Family History with this ID already exists"⟩, st)) ∧
    (∀ (now : Timestamp) (st : AppState) (c : AddressCreate),
      (Store.find? st.addresses c.id).isSome = true →
      create_address now st c =
        (Except.error ⟨400, "Address with this ID already exists"⟩, st)) := by
  constructor
  · intro now st c h
    simp [create_family_history, h]
  · intro now st c h
    simp [create_address, h]

/-- Witness for claim C2: creating a family history whose id 1 is already
stored in sampleState fails with 400 and leaves the state unchanged. -/
theorem claim_C2_create_conflict_witness :
    create_family_history 9 sampleState ⟨1, none, none, none, none⟩ =
      (Except.error ⟨400, "Family History with this ID already exists"⟩, sampleState) :=
  claim_C2_create_conflict.1 9 sampleState ⟨1, none, none, none, none⟩ rfl

/-- Claim C3: for every resource store, patch with an identifier absent
from the store fails with status 404 and returns the application state
unchanged (no entry of any store is mutated). -/
theorem claim_C3_patch_not_found :
    (∀ (st : AppState) (hid : UUID) (u : FamilyHistoryUpdate),
      Store.find? st.family_histories hid = none →
      update_family_history st hid u =
        (Except.error ⟨404, "Family history not found"⟩, st)) ∧
    (∀ (st : AppState) (aid : UUID) (u : AccountBalanceUpdate),
      Store.find? st.account_balances aid = none →
      update_account_balance st aid u =
        (Except.error ⟨404, "Account balance not found"⟩, st)) ∧
    (∀ (st : AppState) (aid : UUID) (u : AddressUpdate),
      Store.find? st.addresses aid = none →
      update_address st aid u =
        (Except.error ⟨404, "Address not found"⟩, st)) ∧
    (∀ (st : AppState) (pid : UUID) (u : PersonUpdate),
      Store.find? st.persons pid = none →
      update_person st pid u =
        (Except.error ⟨404, "Person not found"⟩, st)) := by
  refine ⟨?_, ?_, ?_, ?_⟩
  · intro st hid u h
    simp [update_family_history, h]
  · intro st aid u h
    simp [update_account_balance, h]
  · intro st aid u h
    simp [update_address, h]
  · intro st pid u h
    simp [update_person, h]

/-- Witness for claim C3: patching family history id 2, absent from
sampleState, fails with 404 and leaves the state unchanged. -/
theorem claim_C3_patch_not_found_witness :
    update_family_history sampleState 2 sampleFHUpdate =
      (Except.error ⟨404, "Family history not found"⟩, sampleState) :=
  claim_C3_patch_not_found.1 sampleState 2 sampleFHUpdate rfl

/-- Claim C4 (code bug): the identifier is NOT immutable under patch.
FamilyHistoryUpdate inherits the id field from FamilyHistoryBase, so a
patch body that explicitly carries an id overwrites the stored record id
while the store key stays the same: patching key 1 with body id 2 leaves
the store holding, under key 1, a record whose id field is 2.  This
contradicts the spec (identifier immutable after creation) and the model
docstring (ID comes from the path, not the body). -/
theorem claim_C4_id_overwritten_by_patch_body :
    update_family_history
        ⟨[], [(1, ⟨1, none, none, none, none, 0, 0⟩)], [], []⟩ 1
        ⟨some 2, none, none, none, none⟩ =
      (Except.ok ⟨2, none, none, none, none, 0, 0⟩,
       ⟨[], [(1, ⟨2, none, none, none, none, 0, 0⟩)], [], []⟩) ∧
    (Store.find?
        (update_family_history
          ⟨[], [(1, ⟨1, none, none, none, none, 0, 0⟩)], [], []⟩ 1
          ⟨some 2, none, none, none, none⟩).2.family_histories 1).map
        FamilyHistoryRead.id = some 2 :=
  ⟨rfl, rfl⟩

/-- Claim C5 (code bug): patch does not refresh updated_at.  The patch
handler never reads the clock: patching the record stored under key 7
(created_at = updated_at = 3) with a body setting father leaves both
timestamps equal to 3, while the claim requires the post-patch updated_at
to differ from the pre-patch one. -/
theorem claim_C5_updated_at_not_refreshed :
    update_family_history
        ⟨[], [(7, ⟨7, none, none, none, none, 3, 3⟩)], [], []⟩ 7
        ⟨none, some (some "flu"), none, none, none⟩ =
      (Except.ok ⟨7, some "flu", none, none, none, 3, 3⟩,
       ⟨[], [(7, ⟨7, some "flu", none, none, none, 3, 3⟩)], [], []⟩) :=
  rfl

/-- Claim C6: the AccountBalance and Person create handlers perform no
duplicate-id check: when the payload id is already stored, create
succeeds, the record stored under that id is replaced by the new record,
and the store keeps its size. -/
theorem claim_C6_create_overwrites_without_check :
    (∀ (now : Timestamp) (st : AppState) (c : AccountBalanceCreate),
      (Store.find? st.account_balances c.id).isSome = true →
      ∃ r st',
        create_account_balance now st c = (Except.ok r, st') ∧
        r.id = c.id ∧
        Store.find? st'.account_balances c.id = some r ∧
        st'.account_balances.length = st.account_balances.length) ∧
    (∀ (now : Timestamp) (st : AppState) (c : PersonCreate),
      (Store.find? st.persons c.id).isSome = true →
      ∃ r st',
        create_person now st c = (Except.ok r, st') ∧
        r.id = c.id ∧
        Store.find? st'.persons c.id = some r ∧
        st'.persons.length = st.persons.length) := by
  constructor
  · intro now st c h
    refine ⟨_, _, rfl, rfl, Store.find_insert_self _ _ _, ?_⟩
    exact Store.length_insert_of_found _ _ _ h
  · intro now st c h
    refine ⟨_, _, rfl, rfl, Store.find_insert_self _ _ _, ?_⟩
    exact Store.length_insert_of_found _ _ _ h

/-- Witness for claim C6: creating an account balance with id 3, already
present in sampleState, succeeds and keeps the store size. -/
theorem claim_C6_create_overwrites_without_check_witness :
    ∃ r st',
      create_account_balance 9 sampleState ⟨3, some 7⟩ = (Except.ok r, st') ∧
      r.id = (⟨3, some 7⟩ : AccountBalanceCreate).id ∧
      Store.find? st'.account_balances (⟨3, some 7⟩ : AccountBalanceCreate).id = some r ∧
      st'.account_balances.length = sampleState.account_balances.length :=
  claim_C6_create_overwrites_without_check.1 9 sampleState ⟨3, some 7⟩ rfl

/-- Claim C7: for every resource store, list returns exactly the stored
records satisfying the conjunction of the equality predicates of the
supplied filters; an absent filter imposes no constraint, and list with
no filters returns exactly all stored values. -/
theorem claim_C7_list_filters_conjunction :
    (∀ (st : AppState) (father mother sister brother : Option String)
        (r : FamilyHistoryRead),
      (r ∈ (get_family_histories st father mother sister brother).1 ↔
        r ∈ Store.values st.family_histories ∧
        (∀ v, father = some v → r.father = some v) ∧
        (∀ v, mother = some v → r.mother = some v) ∧
        (∀ v, sister = some v → r.sister = some v) ∧
        (∀ v, brother = some v → r.brother = some v))) ∧
    (∀ st : AppState,
      get_family_histories st none none none none =
        (Store.values st.family_histories, st)) ∧
    (∀ (st : AppState) (bal : Option Int) (r : AccountBalanceRead),
      (r ∈ (get_account_balance st bal).1 ↔
        r ∈ Store.values st.account_balances ∧
        (∀ v, bal = some v → r.account_balance = some v))) ∧
    (∀ st : AppState,
      get_account_balance st none = (Store.values st.account_balances, st)) ∧
    (∀ (st : AppState) (street city state postal_code country : Option String)
        (r : AddressRead),
      (r ∈ (list_addresses st street city state postal_code country).1 ↔
        r ∈ Store.values st.addresses ∧
        (∀ v, street = some v → r.street = some v) ∧
        (∀ v, city = some v → r.city = some v) ∧
        (∀ v, state = some v → r.state = some v) ∧
        (∀ v, postal_code = some v → r.postal_code = some v) ∧
        (∀ v, country = some v → r.country = some v))) ∧
    (∀ st : AppState,
      list_addresses st none none none none none =
        (Store.values st.addresses, st)) ∧
    (∀ (st : AppState)
        (uni first_name last_name email phone birth_date city country : Option String)
        (p : PersonRead),
      (p ∈ (list_persons st uni first_name last_name email phone birth_date city country).1 ↔
        p ∈ Store.values st.persons ∧
        (∀ v, uni = some v → p.uni = v) ∧
        (∀ v, first_name = some v → p.first_name = v) ∧
        (∀ v, last_name = some v → p.last_name = v) ∧
        (∀ v, email = some v → p.email = v) ∧
        (∀ v, phone = some v → p.phone = v) ∧
        (∀ v, birth_date = some v → p.birth_date = v) ∧
        (∀ v, city = some v → ∃ a ∈ p.addresses, a.city = some v) ∧
        (∀ v, country = some v → ∃ a ∈ p.addresses, a.country = some v))) ∧
    (∀ st : AppState,
      list_persons st none none none none none none none none =
        (Store.values st.persons, st)) := by
  refine ⟨?_, fun st => rfl, ?_, fun st => rfl, ?_, fun st => rfl, ?_, fun st => rfl⟩
  · intro st father mother sister brother r
    simp [get_family_histories, and_assoc]
  · intro st bal r
    simp [get_account_balance, and_assoc]
  · intro st street city state postal_code country r
    simp [list_addresses, and_assoc]
  · intro st uni first_name last_name email phone birth_date city country p
    simp [list_persons, List.any_eq_true, and_assoc]

/-- Witness for claim C7: the no-filter family-history conjunct applied
to the concrete sample state. -/
theorem claim_C7_list_filters_conjunction_witness :
    get_family_histories sampleState none none none none =
      (Store.values sampleState.family_histories, sampleState) :=
  claim_C7_list_filters_conjunction.2.1 sampleState

/-- Claim C8: for every stored person and filter value, the person list
filtered by city (respectively country) returns the person if and only if
at least one embedded address has that city (respectively country). -/
theorem claim_C8_person_nested_address_filter :
    (∀ (st : AppState) (p : PersonRead) (c : String),
      p ∈ Store.values st.persons →
      (p ∈ (list_persons st none none none none none none (some c) none).1 ↔
        ∃ a ∈ p.addresses, a.city = some c)) ∧
    (∀ (st : AppState) (p : PersonRead) (c : String),
      p ∈ Store.values st.persons →
      (p ∈ (list_persons st none none none none none none none (some c)).1 ↔
        ∃ a ∈ p.addresses, a.country = some c)) := by
  constructor <;>
    (intro st p c h;
     simp [list_persons, optFilter, List.mem_filter, List.any_eq_true, h])

/-- Witness for claim C8: the city conjunct applied to the sample person,
whose single embedded address has city NYC. -/
theorem claim_C8_person_nested_address_filter_witness :
    samplePerson ∈
        (list_persons sampleState none none none none none none (some "NYC") none).1 ↔
      ∃ a ∈ samplePerson.addresses, a.city = some "NYC" :=
  claim_C8_person_nested_address_filter.1 sampleState samplePerson "NYC" (by decide)

/-- Claim C9: for every resource store, after a successful create the
returned record is stored under its id, get-by-id immediately returns
exactly the record create returned (with the state unchanged), and that
identifier maps to exactly one entry of its store.  For AccountBalance
and Person, whose create handlers have no duplicate check, uniqueness of
the key is relative to the store well-formedness invariant. -/
theorem claim_C9_create_then_get :
    (∀ (now : Timestamp) (st : AppState) (c : FamilyHistoryCreate) r st',
      create_family_history now st c = (Except.ok r, st') →
      Store.find? st'.family_histories r.id = some r ∧
      get_family_history st' r.id = (Except.ok r, st') ∧
      Store.countKey st'.family_histories r.id = 1) ∧
    (∀ (now : Timestamp) (st : AppState) (c : AddressCreate) r st',
      create_address now st c = (Except.ok r, st') →
      Store.find? st'.addresses r.id = some r ∧
      get_address st' r.id = (Except.ok r, st') ∧
      Store.countKey st'.addresses r.id = 1) ∧
    (∀ (now : Timestamp) (st : AppState) (c : AccountBalanceCreate) r st',
      Store.NodupKeys st.account_balances →
      create_account_balance now st c = (Except.ok r, st') →
      Store.find? st'.account_balances r.id = some r ∧
      get_account_balances st' r.id = (Except.ok r, st') ∧
      Store.countKey st'.account_balances r.id = 1) ∧
    (∀ (now : Timestamp) (st : AppState) (c : PersonCreate) r st',
      Store.NodupKeys st.persons →
      create_person now st c = (Except.ok r, st') →
      Store.find? st'.persons r.id = some r ∧
      get_person st' r.id = (Except.ok r, st') ∧
      Store.countKey st'.persons r.id = 1) := by
  refine ⟨?_, ?_, ?_, ?_⟩
  · intro now st c r st' h
    unfold create_family_history at h
    by_cases hf : (Store.find? st.family_histories c.id).isSome
    · rw [if_pos hf] at h
      exact absurd (congrArg Prod.fst h) (by simp)
    · rw [if_neg hf] at h
      have hn : Store.find? st.family_histories c.id = none :=
        Option.not_isSome_iff_eq_none.mp hf
      simp only [Prod.mk.injEq, Except.ok.injEq] at h
      obtain ⟨h1, h2⟩ := h
      subst h1
      subst h2
      refine ⟨Store.find_insert_self _ _ _, ?_, ?_⟩
      · simp [get_family_history]
      · simp [Store.countKey_insert_self,
          Store.countKey_eq_zero_of_find_eq_none _ _ hn]
  · intro now st c r st' h
    unfold create_address at h
    by_cases hf : (Store.find? st.addresses c.id).isSome
    · rw [if_pos hf] at h
      exact absurd (congrArg Prod.fst h) (by simp)
    · rw [if_neg hf] at h
      have hn : Store.find? st.addresses c.id = none :=
        Option.not_isSome_iff_eq_none.mp hf
      simp only [Prod.mk.injEq, Except.ok.injEq] at h
      obtain ⟨h1, h2⟩ := h
      subst h1
      subst h2
      refine ⟨Store.find_insert_self _ _ _, ?_, ?_⟩
      · simp [get_address]
      · simp [Store.countKey_insert_self,
          Store.countKey_eq_zero_of_find_eq_none _ _ hn]
  · intro now st c r st' hnd h
    unfold create_account_balance at h
    simp only [Prod.mk.injEq, Except.ok.injEq] at h
    obtain ⟨h1, h2⟩ := h
    subst h1
    subst h2
    have hle := Store.countKey_le_one_of_nodup st.account_balances c.id hnd
    refine ⟨Store.find_insert_self _ _ _, ?_, ?_⟩
    · simp [get_account_balances]
    · simp only [Store.countKey_insert_self]
      omega
  · intro now st c r st' hnd h
    unfold create_person at h
    simp only [Prod.mk.injEq, Except.ok.injEq] at h
    obtain ⟨h1, h2⟩ := h
    subst h1
    subst h2
    have hle := Store.countKey_le_one_of_nodup st.persons c.id hnd
    refine ⟨Store.find_insert_self _ _ _, ?_, ?_⟩
    · simp [get_person]
    · simp only [Store.countKey_insert_self]
      omega

/-- Witness for claim C9: creating family history id 2 in the sample
state, where 2 is fresh, then reading it back. -/
theorem claim_C9_create_then_get_witness :
    Store.find?
        (create_family_history 4 sampleState ⟨2, some "flu", none, none, none⟩).2.family_histories
        2 = some ⟨2, some "flu", none, none, none, 4, 4⟩ ∧
    get_family_history
        (create_family_history 4 sampleState ⟨2, some "flu", none, none, none⟩).2 2 =
      (Except.ok ⟨2, some "flu", none, none, none, 4, 4⟩,
       (create_family_history 4 sampleState ⟨2, some "flu", none, none, none⟩).2) ∧
    Store.countKey
        (create_family_history 4 sampleState ⟨2, some "flu", none, none, none⟩).2.family_histories
        2 = 1 :=
  claim_C9_create_then_get.1 4 sampleState ⟨2, some "flu", none, none, none⟩
    ⟨2, some "flu", none, none, none, 4, 4⟩
    (create_family_history 4 sampleState ⟨2, some "flu", none, none, none⟩).2 rfl

/-- Claim C10: the read operations, get-by-id (found or not) and list
(any filters), return the application state unchanged: no store is
mutated by any read. -/
theorem claim_C10_reads_leave_state_unchanged :
    (∀ (st : AppState) (hid : UUID), (get_family_history st hid).2 = st) ∧
    (∀ (st : AppState) (father mother sister brother : Option String),
      (get_family_histories st father mother sister brother).2 = st) ∧
    (∀ (st : AppState) (aid : UUID), (get_account_balances st aid).2 = st) ∧
    (∀ (st : AppState) (bal : Option Int), (get_account_balance st bal).2 = st) ∧
    (∀ (st : AppState) (aid : UUID), (get_address st aid).2 = st) ∧
    (∀ (st : AppState) (street city state postal_code country : Option String),
      (list_addresses st street city state postal_code country).2 = st) ∧
    (∀ (st : AppState) (pid : UUID), (get_person st pid).2 = st) ∧
    (∀ (st : AppState)
        (uni first_name last_name email phone birth_date city country : Option String),
      (list_persons st uni first_name last_name email phone birth_date city country).2 = st) := by
  refine ⟨?_, fun _ _ _ _ _ => rfl, ?_, fun _ _ => rfl, ?_,
    fun _ _ _ _ _ _ => rfl, ?_, fun _ _ _ _ _ _ _ _ _ => rfl⟩
  · intro st hid
    unfold get_family_history
    split <;> rfl
  · intro st aid
    unfold get_account_balances
    split <;> rfl
  · intro st aid
    unfold get_address
    split <;> rfl
  · intro st pid
    unfold get_person
    split <;> rfl
